import Mathlib

/-!
Verification of the sidebar-collapse decision logic of the
obsidian-side-hide-trigger plugin (src/main.ts).

Strings are modelled through their character lists (`String.data`), with
the JavaScript string operations used by the source (`trim`, `startsWith`,
`endsWith`, `substring(1)`, `===`) embedded as executable functions on
`String`.  Frontmatter is a finite list of key/value bindings with unique
lookup (first binding wins), its values being the YAML scalars the host
exposes; `String(v)` is embedded as `FmValue.jsString`.  The absent case
of an optional value models JavaScript `undefined`.
-/

/-- Whitespace recognised by the model of JavaScript `trim` (the source
only ever trims ordinary ASCII whitespace). -/
def jsWhitespace (c : Char) : Bool :=
  c == ' ' || c == '\t' || c == '\n' || c == '\r'

/-- Model of JavaScript `s.trim()`: strip whitespace from both ends. -/
def jsTrim (s : String) : String :=
  String.mk (((s.data.dropWhile jsWhitespace).reverse.dropWhile jsWhitespace).reverse)

/-- Model of JavaScript `s.startsWith(p)` (literal, case-sensitive). -/
def jsStartsWith (s p : String) : Bool :=
  p.data.isPrefixOf s.data

/-- Model of JavaScript `s.endsWith(p)` (literal, case-sensitive). -/
def jsEndsWith (s p : String) : Bool :=
  p.data.reverse.isPrefixOf s.data.reverse

/-- Model of JavaScript `s.substring(1)`: drop the first character. -/
def jsSubstringOne (s : String) : String :=
  String.mk (s.data.drop 1)

/-- Scalar frontmatter values the host metadata cache exposes
(string / number / boolean / null). Numbers are modelled as integers;
no claim involves fractional values. -/
inductive FmValue where
  | str : String → FmValue
  | intNum : Int → FmValue
  | boolVal : Bool → FmValue
  | nullVal : FmValue
deriving DecidableEq, Repr

/-- Model of JavaScript `String(v)` on a defined scalar value. -/
def FmValue.jsString : FmValue → String
  | .str s => s
  | .intNum n => toString n
  | .boolVal b => if b then "true" else "false"
  | .nullVal => "null"

/-- Model of JavaScript `String(v)` on a possibly-undefined value:
`String(undefined)` is the literal string "undefined". -/
def jsStringOpt : Option FmValue → String
  | none => "undefined"
  | some v => v.jsString

/-- Frontmatter as the host exposes it: key/value bindings; `lookup`
(first binding) models JavaScript object property access. -/
def Frontmatter := List (String × FmValue)

/-- Interface FrontmatterRule of src/main.ts (lines 6-9). -/
structure FrontmatterRule where
  key : String
  value : String
deriving DecidableEq, Repr

/-- Interface MyPluginSettings of src/main.ts (lines 14-17). -/
structure MyPluginSettings where
  collapsePaths : List String
  collapseFrontmatterRules : List FrontmatterRule
deriving DecidableEq, Repr

/-- Constant DEFAULT_SETTINGS of src/main.ts (lines 22-25). -/
def DEFAULT_SETTINGS : MyPluginSettings :=
  { collapsePaths := []
    collapseFrontmatterRules := [{ key := "hideside", value := "true" }] }

/-- File identity plus the metadata snapshot used by one decision: the
TFile fields `path` and `extension` (extension carries no leading dot),
together with the frontmatter the metadata cache returns for the file
(`none` when the file has no parsed frontmatter block). -/
structure FileContext where
  path : String
  extension : String
  frontmatter : Option Frontmatter

/-- Body of the `some` callback over `collapsePaths` in
shouldCollapseSidebar, src/main.ts lines 78-91: trim the entry; an empty
trimmed entry never matches; a trailing slash means folder-prefix match
on `file.path`; otherwise a leading dot means exact match of
`file.extension` against the entry without its dot; anything else never
matches. -/
def pathRuleMatches (file : FileContext) (settingPath : String) : Bool :=
  let trimmedPath := jsTrim settingPath
  if trimmedPath == "" then false
  else if jsEndsWith trimmedPath "/" then jsStartsWith file.path trimmedPath
  else if jsStartsWith trimmedPath "." then file.extension == jsSubstringOne trimmedPath
  else false

/-- Body of the `some` callback over `collapseFrontmatterRules` in
shouldCollapseSidebar, src/main.ts lines 100-103: look the rule key up in
the frontmatter; the rule matches when the value is defined and its
string conversion, trimmed, equals the rule value, trimmed. -/
def frontmatterRuleMatches (frontmatter : Frontmatter) (rule : FrontmatterRule) : Bool :=
  let frontmatterValue := List.lookup rule.key frontmatter
  frontmatterValue.isSome && (jsTrim (jsStringOpt frontmatterValue) == jsTrim rule.value)

/-- Method shouldCollapseSidebar of src/main.ts (lines 76-107): true when
some path rule matches; otherwise, when frontmatter is present, true when
some frontmatter rule matches; otherwise false. -/
def shouldCollapseSidebar (settings : MyPluginSettings) (file : FileContext) : Bool :=
  let pathMatches := settings.collapsePaths.any (pathRuleMatches file)
  if pathMatches then
    true
  else
    match file.frontmatter with
    | some fm => settings.collapseFrontmatterRules.any (frontmatterRuleMatches fm)
    | none => false

/-- Effect of the file-open handler on the left sidebar. -/
inductive SidebarAction where
  | noAction
  | collapseSidebar
  | expandSidebar
deriving DecidableEq, Repr

/-- Method handleFileOpen of src/main.ts (lines 50-70): no file means no
action; with both rule lists empty the sidebar is expanded; otherwise the
decision of shouldCollapseSidebar selects collapse or expand. -/
def handleFileOpen (settings : MyPluginSettings) (file : Option FileContext) : SidebarAction :=
  match file with
  | none => SidebarAction.noAction
  | some f =>
    if settings.collapsePaths.length == 0 && settings.collapseFrontmatterRules.length == 0 then
      SidebarAction.expandSidebar
    else if shouldCollapseSidebar settings f then
      SidebarAction.collapseSidebar
    else
      SidebarAction.expandSidebar

/-- Persisted data as loadData may return it: absent entirely, or an
object in which each settings field is present or absent. -/
structure SavedData where
  collapsePaths : Option (List String)
  collapseFrontmatterRules : Option (List FrontmatterRule)

/-- Method loadSettings of src/main.ts (lines 112-114):
Object.assign over an empty object, DEFAULT_SETTINGS and the loaded data,
so every field present in the saved data replaces the default field. -/
def loadSettings : Option SavedData → MyPluginSettings
  | none => DEFAULT_SETTINGS
  | some d =>
    { collapsePaths := d.collapsePaths.getD DEFAULT_SETTINGS.collapsePaths
      collapseFrontmatterRules :=
        d.collapseFrontmatterRules.getD DEFAULT_SETTINGS.collapseFrontmatterRules }

/-! Helper lemmas. -/

/-- Characterisation of the decision when the file has a frontmatter block. -/
theorem shouldCollapseSidebar_some (s : MyPluginSettings) (p e : String) (fml : Frontmatter) :
    shouldCollapseSidebar s ⟨p, e, some fml⟩ =
      (s.collapsePaths.any (pathRuleMatches ⟨p, e, some fml⟩) ||
        s.collapseFrontmatterRules.any (frontmatterRuleMatches fml)) := by
  unfold shouldCollapseSidebar
  cases h : s.collapsePaths.any (pathRuleMatches ⟨p, e, some fml⟩) <;> simp [h]

/-- Characterisation of the decision when the file has no frontmatter block. -/
theorem shouldCollapseSidebar_none (s : MyPluginSettings) (p e : String) :
    shouldCollapseSidebar s ⟨p, e, none⟩ =
      s.collapsePaths.any (pathRuleMatches ⟨p, e, none⟩) := by
  unfold shouldCollapseSidebar
  cases h : s.collapsePaths.any (pathRuleMatches ⟨p, e, none⟩) <;> simp [h]

/-- A frontmatter rule matches exactly when its key is bound and the bound
value prints, after trimming, to the trimmed rule value. -/
theorem frontmatterRuleMatches_iff (fm : Frontmatter) (rule : FrontmatterRule) :
    frontmatterRuleMatches fm rule = true ↔
      ∃ v, List.lookup rule.key fm = some v ∧ jsTrim v.jsString = jsTrim rule.value := by
  unfold frontmatterRuleMatches
  cases hl : List.lookup rule.key fm with
  | none => simp
  | some v => simp [jsStringOpt]

/-- Permutations of a list leave List.any unchanged. -/
theorem any_eq_of_perm {α : Type} {l₁ l₂ : List α} (h : l₁.Perm l₂) (f : α → Bool) :
    l₁.any f = l₂.any f := by
  induction h with
  | nil => rfl
  | cons x _ ih => simp [List.any_cons, ih]
  | swap x y l => simp [List.any_cons, Bool.or_left_comm]
  | trans _ _ ih₁ ih₂ => exact ih₁.trans ih₂

/-! Claims. -/

/-- C1: whenever some path rule matches a file, the decision is collapse,
and the frontmatter is never consulted: the result is true for every
frontmatter the file could carry, matching or mismatching. -/
theorem pathMatch_forces_collapse (s : MyPluginSettings) (p e : String)
    (fm fm' : Option Frontmatter)
    (h : s.collapsePaths.any (pathRuleMatches ⟨p, e, fm⟩) = true) :
    shouldCollapseSidebar s ⟨p, e, fm'⟩ = true := by
  unfold shouldCollapseSidebar
  have h' : s.collapsePaths.any (pathRuleMatches ⟨p, e, fm'⟩) = true := h
  simp [h']

/-- Witness for C1: a folder rule matches, and the decision is collapse
even though the frontmatter mismatches the configured frontmatter rule. -/
theorem pathMatch_forces_collapse_witness :
    (MyPluginSettings.mk ["attachments/"] [⟨"hideside", "true"⟩]).collapsePaths.any
      (pathRuleMatches ⟨"attachments/img.png", "png", none⟩) = true ∧
    shouldCollapseSidebar ⟨["attachments/"], [⟨"hideside", "true"⟩]⟩
      ⟨"attachments/img.png", "png", some [("hideside", FmValue.str "false")]⟩ = true :=
  ⟨by decide,
    pathMatch_forces_collapse ⟨["attachments/"], [⟨"hideside", "true"⟩]⟩
      "attachments/img.png" "png" none (some [("hideside", FmValue.str "false")]) (by decide)⟩

/-- C2: with both rule lists empty the decision is always false and the
handler always expands the sidebar, whatever the file. -/
theorem emptyRules_alwaysExpand (ctx : FileContext) :
    shouldCollapseSidebar ⟨[], []⟩ ctx = false ∧
    handleFileOpen ⟨[], []⟩ (some ctx) = SidebarAction.expandSidebar := by
  obtain ⟨p, e, fm⟩ := ctx
  refine ⟨?_, rfl⟩
  cases fm with
  | none => rfl
  | some l => rfl

/-- C8: an absent file reference makes the handler perform no action at
all, for every rule configuration. -/
theorem absentFile_noAction (s : MyPluginSettings) :
    handleFileOpen s none = SidebarAction.noAction := rfl

/-- C9: loading settings merges the saved data over the documented
defaults: no saved data yields the defaults (empty path rules, the single
frontmatter rule hideside/true), and each saved field replaces the
corresponding default field. -/
theorem loadSettings_merges_defaults :
    DEFAULT_SETTINGS = ⟨[], [⟨"hideside", "true"⟩]⟩ ∧
    loadSettings none = DEFAULT_SETTINGS ∧
    (∀ paths rules, loadSettings (some ⟨some paths, some rules⟩) = ⟨paths, rules⟩) ∧
    (∀ paths, loadSettings (some ⟨some paths, none⟩) = ⟨paths, [⟨"hideside", "true"⟩]⟩) ∧
    (∀ rules, loadSettings (some ⟨none, some rules⟩) = ⟨[], rules⟩) :=
  ⟨rfl, rfl, fun _ _ => rfl, fun _ => rfl, fun _ => rfl⟩

/-- C10: a frontmatter rule whose key is not bound in the present
frontmatter never matches, whatever the rule value is. -/
theorem absentKey_neverMatches (fm : Frontmatter) (rule : FrontmatterRule)
    (h : List.lookup rule.key fm = none) :
    frontmatterRuleMatches fm rule = false := by
  unfold frontmatterRuleMatches
  rw [h]
  rfl

/-- Witness for C10 at the rule value "undefined": the key is absent and
the rule does not match, although String(undefined) trims to the rule
value. -/
theorem absentKey_neverMatches_witness :
    List.lookup "hideside" ([("other", FmValue.str "x")] : Frontmatter) = none ∧
    frontmatterRuleMatches [("other", FmValue.str "x")] ⟨"hideside", "undefined"⟩ = false :=
  ⟨by decide, absentKey_neverMatches [("other", FmValue.str "x")] ⟨"hideside", "undefined"⟩ (by decide)⟩

/-- C3: a path-rule entry whose trimmed form ends with the path
separator matches exactly when the file path starts with the trimmed
entry, as a literal case-sensitive prefix comparison. -/
theorem folderRule_prefixMatch (entry : String) (ctx : FileContext)
    (h : jsEndsWith (jsTrim entry) "/" = true) :
    pathRuleMatches ctx entry = jsStartsWith ctx.path (jsTrim entry) := by
  have hne : (jsTrim entry == "") = false := by
    cases he : (jsTrim entry == "") with
    | false => rfl
    | true =>
      have heq : jsTrim entry = "" := eq_of_beq he
      rw [heq] at h
      exact absurd h (by decide)
  unfold pathRuleMatches
  simp [hne, h]

/-- Witness for C3: the entry "attachments/" matches the path
"attachments/img.png" and does not match "notes/attachments/img.png". -/
theorem folderRule_prefixMatch_witness :
    jsEndsWith (jsTrim "attachments/") "/" = true ∧
    pathRuleMatches ⟨"attachments/img.png", "png", none⟩ "attachments/" = true ∧
    pathRuleMatches ⟨"notes/attachments/img.png", "png", none⟩ "attachments/" = false := by
  refine ⟨by decide, ?_, ?_⟩
  · rw [folderRule_prefixMatch "attachments/" ⟨"attachments/img.png", "png", none⟩ (by decide)]
    decide
  · rw [folderRule_prefixMatch "attachments/" ⟨"notes/attachments/img.png", "png", none⟩ (by decide)]
    decide

/-- C4: a path-rule entry whose trimmed form does not end with the path
separator but starts with a dot matches exactly when the file extension
equals the trimmed entry without its leading dot, case-sensitively. -/
theorem extensionRule_exactMatch (entry : String) (ctx : FileContext)
    (h1 : jsEndsWith (jsTrim entry) "/" = false)
    (h2 : jsStartsWith (jsTrim entry) "." = true) :
    pathRuleMatches ctx entry = (ctx.extension == jsSubstringOne (jsTrim entry)) := by
  have hne : (jsTrim entry == "") = false := by
    cases he : (jsTrim entry == "") with
    | false => rfl
    | true =>
      have heq : jsTrim entry = "" := eq_of_beq he
      rw [heq] at h2
      exact absurd h2 (by decide)
  unfold pathRuleMatches
  simp [hne, h1, h2]

/-- Witness for C4: the entry ".pdf" matches the extension "pdf" and
does not match the extension "PDF". -/
theorem extensionRule_exactMatch_witness :
    (jsEndsWith (jsTrim ".pdf") "/" = false ∧ jsStartsWith (jsTrim ".pdf") "." = true) ∧
    pathRuleMatches ⟨"a/b.pdf", "pdf", none⟩ ".pdf" = true ∧
    pathRuleMatches ⟨"a/b.PDF", "PDF", none⟩ ".pdf" = false := by
  refine ⟨⟨by decide, by decide⟩, ?_, ?_⟩
  · rw [extensionRule_exactMatch ".pdf" ⟨"a/b.pdf", "pdf", none⟩ (by decide) (by decide)]
    decide
  · rw [extensionRule_exactMatch ".pdf" ⟨"a/b.PDF", "PDF", none⟩ (by decide) (by decide)]
    decide

/-- C5: when no path rule matches, the decision with a present
frontmatter is collapse exactly when some configured rule has its key
bound in the frontmatter to a value whose trimmed string conversion
equals the trimmed rule value; with an absent frontmatter the decision
is expand. -/
theorem frontmatterFallback (s : MyPluginSettings) (p e : String) (fmo : Option Frontmatter)
    (hnp : s.collapsePaths.any (pathRuleMatches ⟨p, e, fmo⟩) = false) :
    (∀ fm, fmo = some fm →
      (shouldCollapseSidebar s ⟨p, e, fmo⟩ = true ↔
        ∃ r ∈ s.collapseFrontmatterRules, ∃ v,
          List.lookup r.key fm = some v ∧ jsTrim v.jsString = jsTrim r.value)) ∧
    (fmo = none → shouldCollapseSidebar s ⟨p, e, fmo⟩ = false) := by
  constructor
  · intro fm hfm
    subst hfm
    rw [shouldCollapseSidebar_some, hnp]
    simp only [Bool.false_or, List.any_eq_true, frontmatterRuleMatches_iff]
  · intro hfm
    subst hfm
    rw [shouldCollapseSidebar_none]
    exact hnp

/-- Witness for C5: with no path rules, frontmatter hideside: "true"
satisfies the rule hideside/"true", and the characterisation holds. -/
theorem frontmatterFallback_witness :
    (MyPluginSettings.mk [] [⟨"hideside", "true"⟩]).collapsePaths.any
      (pathRuleMatches ⟨"a.md", "md", some [("hideside", FmValue.str "true")]⟩) = false ∧
    ((∀ fm, (some [("hideside", FmValue.str "true")] : Option Frontmatter) = some fm →
      (shouldCollapseSidebar ⟨[], [⟨"hideside", "true"⟩]⟩
          ⟨"a.md", "md", some [("hideside", FmValue.str "true")]⟩ = true ↔
        ∃ r ∈ (MyPluginSettings.mk [] [⟨"hideside", "true"⟩]).collapseFrontmatterRules, ∃ v,
          List.lookup r.key fm = some v ∧ jsTrim v.jsString = jsTrim r.value)) ∧
    ((some [("hideside", FmValue.str "true")] : Option Frontmatter) = none →
      shouldCollapseSidebar ⟨[], [⟨"hideside", "true"⟩]⟩
        ⟨"a.md", "md", some [("hideside", FmValue.str "true")]⟩ = false)) :=
  ⟨by decide,
    frontmatterFallback ⟨[], [⟨"hideside", "true"⟩]⟩ "a.md" "md"
      (some [("hideside", FmValue.str "true")]) (by decide)⟩

/-- C6: a path-rule entry that trims to the empty string, or whose
trimmed form neither ends with the path separator nor starts with a dot,
never matches any file, and removing it from the path-rule list leaves
every decision unchanged. -/
theorem malformedEntry_inert (entry : String)
    (h : jsTrim entry = "" ∨
      (jsEndsWith (jsTrim entry) "/" = false ∧ jsStartsWith (jsTrim entry) "." = false)) :
    ∀ (ctx : FileContext) (pre post : List String) (fmRules : List FrontmatterRule),
      pathRuleMatches ctx entry = false ∧
      shouldCollapseSidebar ⟨pre ++ entry :: post, fmRules⟩ ctx =
        shouldCollapseSidebar ⟨pre ++ post, fmRules⟩ ctx := by
  intro ctx pre post fmRules
  have hmatch : pathRuleMatches ctx entry = false := by
    unfold pathRuleMatches
    rcases h with he | ⟨h1, h2⟩
    · simp [he]
    · cases hz : (jsTrim entry == "") with
      | true => simp [hz]
      | false => simp [hz, h1, h2]
  have hany : (pre ++ entry :: post).any (pathRuleMatches ctx) =
      (pre ++ post).any (pathRuleMatches ctx) := by
    simp [List.any_append, List.any_cons, hmatch]
  obtain ⟨p, e, fm⟩ := ctx
  refine ⟨hmatch, ?_⟩
  cases fm with
  | none => rw [shouldCollapseSidebar_none, shouldCollapseSidebar_none]; exact hany
  | some l => rw [shouldCollapseSidebar_some, shouldCollapseSidebar_some, hany]

/-- Witness for C6: the malformed entry "notes" matches nothing, and
deleting it from a rule list changes no decision. -/
theorem malformedEntry_inert_witness :
    (jsTrim "notes" = "" ∨
      (jsEndsWith (jsTrim "notes") "/" = false ∧ jsStartsWith (jsTrim "notes") "." = false)) ∧
    (pathRuleMatches ⟨"notes/a.md", "md", none⟩ "notes" = false ∧
      shouldCollapseSidebar ⟨["x/"] ++ "notes" :: [".pdf"], [⟨"hideside", "true"⟩]⟩
          ⟨"notes/a.md", "md", none⟩ =
        shouldCollapseSidebar ⟨["x/"] ++ [".pdf"], [⟨"hideside", "true"⟩]⟩
          ⟨"notes/a.md", "md", none⟩) :=
  ⟨Or.inr ⟨by decide, by decide⟩,
    malformedEntry_inert "notes" (Or.inr ⟨by decide, by decide⟩)
      ⟨"notes/a.md", "md", none⟩ ["x/"] [".pdf"] [⟨"hideside", "true"⟩]⟩

/-- C7: permuting the path-rule list and the frontmatter-rule list leaves
every decision unchanged: each list is an inclusive disjunction. -/
theorem rulesPermutation_invariant (s t : MyPluginSettings) (ctx : FileContext)
    (hp : s.collapsePaths.Perm t.collapsePaths)
    (hf : s.collapseFrontmatterRules.Perm t.collapseFrontmatterRules) :
    shouldCollapseSidebar s ctx = shouldCollapseSidebar t ctx := by
  obtain ⟨p, e, fm⟩ := ctx
  cases fm with
  | none =>
    rw [shouldCollapseSidebar_none, shouldCollapseSidebar_none, any_eq_of_perm hp]
  | some l =>
    rw [shouldCollapseSidebar_some, shouldCollapseSidebar_some,
      any_eq_of_perm hp, any_eq_of_perm hf]

/-- Witness for C7: swapping two path rules and two frontmatter rules
leaves the decision unchanged on a concrete file. -/
theorem rulesPermutation_invariant_witness :
    (["a/", ".md"].Perm [".md", "a/"] ∧
      ([⟨"k", "v"⟩, ⟨"hideside", "true"⟩] : List FrontmatterRule).Perm
        [⟨"hideside", "true"⟩, ⟨"k", "v"⟩]) ∧
    shouldCollapseSidebar ⟨["a/", ".md"], [⟨"k", "v"⟩, ⟨"hideside", "true"⟩]⟩
        ⟨"b/c.md", "md", some [("hideside", FmValue.str "true")]⟩ =
      shouldCollapseSidebar ⟨[".md", "a/"], [⟨"hideside", "true"⟩, ⟨"k", "v"⟩]⟩
        ⟨"b/c.md", "md", some [("hideside", FmValue.str "true")]⟩ :=
  ⟨⟨List.Perm.swap ".md" "a/" [],
      List.Perm.swap (FrontmatterRule.mk "hideside" "true") (FrontmatterRule.mk "k" "v") []⟩,
    rulesPermutation_invariant ⟨["a/", ".md"], [⟨"k", "v"⟩, ⟨"hideside", "true"⟩]⟩
      ⟨[".md", "a/"], [⟨"hideside", "true"⟩, ⟨"k", "v"⟩]⟩
      ⟨"b/c.md", "md", some [("hideside", FmValue.str "true")]⟩
      (List.Perm.swap ".md" "a/" [])
      (List.Perm.swap (FrontmatterRule.mk "hideside" "true") (FrontmatterRule.mk "k" "v") [])⟩
